import Mathlib

/-!
# Drift-detection core of `document_manager`, shallowly embedded

This file embeds the `DriftDetection` class of `utils/driftDetection.ts`
into Lean: the text-similarity scorer, the section differ, the metadata
differ, the drift analyzer (`analyzeDocuments`), and the merge resolver
(`createMergePreview` / `mergeSections`).  Numeric values that the source
computes with JavaScript numbers are modelled with exact rationals (`ℚ`);
JavaScript `Set`s are modelled with `Finset`, and JavaScript `Map`s (whose
keys keep first-insertion order while a duplicate key keeps the last value)
are modelled by a first-occurrence key list plus a last-occurrence lookup.
-/

namespace DriftDetection

/-- One step of splitting a string on runs of whitespace, processed from the
right: `tokStep c ts` is the JavaScript `split(/\s+/)` of `c` prepended to a
string whose split is `ts`.  A whitespace character extends an existing
separator run (head piece already empty and not the only piece) or opens a
new one; any other character is prepended to the head piece.  Whitespace is
modelled by `Char.isWhitespace`. -/
def tokStep (c : Char) : List String → List String
  | [] => []
  | t :: ts =>
    if c.isWhitespace then
      if t = "" ∧ ts ≠ [] then t :: ts else "" :: t :: ts
    else String.mk (c :: t.data) :: ts

/-- JavaScript `str.split(/\s+/)`: the (possibly empty) pieces between
maximal whitespace runs, including an empty piece before a leading run and
after a trailing run; `"".split(/\s+/)` is `[""]`. -/
def rawTokens (s : String) : List String :=
  s.data.foldr tokStep [""]

/-- JavaScript `toLowerCase`, modelled character-wise with `Char.toLower`
(the two agree on the ASCII range). -/
def lowerCase (s : String) : String :=
  String.mk (s.data.map Char.toLower)

/-- Distinct elements of a list, keeping the first occurrence of each, in
order: the element sequence of a JavaScript `Set`/`Map` built from the
list (a `Map` additionally keeps the last value for a duplicate key, see
`sectionGet`). -/
def dedupKeys : List String → List String
  | [] => []
  | t :: ts => t :: (dedupKeys ts).filter (fun x => x ≠ t)

/-- The token set of a string as built by `calculateStringSimilarity`:
`new Set(str.toLowerCase().split(/\s+/))`, as a duplicate-free list. -/
def tokenSet (s : String) : List String :=
  dedupKeys (rawTokens (lowerCase s))

/-- Jaccard similarity over whitespace tokens, from
`DriftDetection.calculateStringSimilarity`: case-fold, split on whitespace
runs, compare the resulting sets; an empty union is defined as
similarity 1. -/
def calculateStringSimilarity (str1 str2 : String) : ℚ :=
  let set1 := tokenSet str1
  let set2 := tokenSet str2
  let intersection := set1.filter (fun x => x ∈ set2)
  let union := dedupKeys (set1 ++ set2)
  if union.length = 0 then 1 else (intersection.length : ℚ) / (union.length : ℚ)

/-- The `'low' | 'medium' | 'high'` significance tag of a `DriftChange`. -/
inductive Significance where
  | low
  | medium
  | high
deriving DecidableEq, Repr

/-- The `'addition' | 'deletion' | 'modification'` tag of a `DriftChange`. -/
inductive ChangeType where
  | addition
  | deletion
  | modification
deriving DecidableEq, Repr

/-- Structure `DriftChange` from `types/index.ts`: one detected difference.  The
source's `section` field is called `sectionPath` here because `section` is
a Lean keyword. -/
structure DriftChange where
  sectionPath : String
  type : ChangeType
  oldValue : Option String
  newValue : Option String
  significance : Significance
deriving DecidableEq, Repr

/-- Type `DriftRecommendation` from `types/index.ts`. -/
inductive DriftRecommendation where
  | createNew
  | updateExisting
  | manualReview
  | mergeRequired
deriving DecidableEq, Repr

/-- Structure `DriftAnalysis` from `types/index.ts`: the analyzer's result. -/
structure DriftAnalysis where
  hasChanges : Bool
  confidence : ℚ
  changes : List DriftChange
  recommendation : DriftRecommendation
deriving DecidableEq, Repr

/-- A JavaScript value that can sit in a metadata field: a string, an array
of strings, a number, or `undefined` (absent).  `JSON.stringify`-equality of
two such values coincides with structural equality, which is how
`analyzeMetadataChanges` compares fields. -/
inductive MetaVal where
  | absent
  | str (s : String)
  | arr (l : List String)
  | num (q : ℚ)
deriving DecidableEq, Repr

/-- Structure `DocumentSection` from `types/index.ts` (the open `metadata` map, unused
by drift detection, is omitted; the section type tag is kept as a string). -/
structure DocumentSection where
  title : String
  content : String
  sectionType : String
deriving DecidableEq, Repr

/-- Structure `EnrichedDocumentMetadata` from `types/index.ts`. -/
structure EnrichedDocumentMetadata where
  serviceName : Option String
  version : Option String
  author : Option String
  dependencies : Option (List String)
  tags : Option (List String)
  category : Option String
  businessUnit : Option String
  enrichmentTimestamp : String
  llmModel : String
  confidence : ℚ
  reviewStatus : String
  reviewedBy : Option String
deriving DecidableEq, Repr

/-- Dynamic property lookup `metadata[field]` on an
`EnrichedDocumentMetadata` object; a name that is not a declared field
reads as `undefined`. -/
def EnrichedDocumentMetadata.get (m : EnrichedDocumentMetadata) (field : String) : MetaVal :=
  let optStr : Option String → MetaVal := fun v => match v with
    | some s => .str s
    | none => .absent
  let optArr : Option (List String) → MetaVal := fun v => match v with
    | some l => .arr l
    | none => .absent
  if field = "serviceName" then optStr m.serviceName
  else if field = "version" then optStr m.version
  else if field = "author" then optStr m.author
  else if field = "dependencies" then optArr m.dependencies
  else if field = "tags" then optArr m.tags
  else if field = "category" then optStr m.category
  else if field = "businessUnit" then optStr m.businessUnit
  else if field = "enrichmentTimestamp" then .str m.enrichmentTimestamp
  else if field = "llmModel" then .str m.llmModel
  else if field = "confidence" then .num m.confidence
  else if field = "reviewStatus" then .str m.reviewStatus
  else if field = "reviewedBy" then optStr m.reviewedBy
  else .absent

/-- Structure `DocumentContent` from `types/index.ts`. -/
structure DocumentContent where
  title : String
  summary : String
  description : String
  purpose : String
  sections : List DocumentSection
deriving DecidableEq, Repr

/-- Structure `DocumentMetadata` from `types/index.ts` (the raw-input metadata). -/
structure DocumentMetadata where
  serviceName : Option String
  version : Option String
  author : Option String
  dependencies : Option (List String)
  tags : Option (List String)
  category : Option String
  businessUnit : Option String
deriving DecidableEq, Repr

/-- Structure `DocumentInput` from `types/index.ts` (the document type tag is kept as
a string). -/
structure DocumentInput where
  content : String
  type : String
  metadata : DocumentMetadata
deriving DecidableEq, Repr

/-- Structure `EnrichedDocument` from `types/index.ts` (the open `structuredData` map
is modelled as an association list). -/
structure EnrichedDocument where
  id : Option String
  originalInput : DocumentInput
  enrichedContent : DocumentContent
  metadata : EnrichedDocumentMetadata
  structuredData : List (String × String)
  createdAt : String
  updatedAt : String
deriving DecidableEq, Repr

/-- Constant `SIMILARITY_THRESHOLD` (0.7). -/
def SIMILARITY_THRESHOLD : ℚ := 7/10

/-- Constant `HIGH_SIGNIFICANCE_THRESHOLD` (0.5). -/
def HIGH_SIGNIFICANCE_THRESHOLD : ℚ := 1/2

/-- Constant `MEDIUM_SIGNIFICANCE_THRESHOLD` (0.8). -/
def MEDIUM_SIGNIFICANCE_THRESHOLD : ℚ := 4/5

/-- Source `DriftDetection.determineSignificance`: shared significance rule for
text changes. -/
def determineSignificance (similarity : ℚ) : Significance :=
  if similarity < HIGH_SIGNIFICANCE_THRESHOLD then .high
  else if similarity < MEDIUM_SIGNIFICANCE_THRESHOLD then .medium
  else .low

/-- Source `DriftDetection.analyzeTextChanges`: zero or one modification record
for a plain text field. -/
def analyzeTextChanges (sectionName oldText newText : String)
    (ignoreMinor : Bool) : List DriftChange :=
  if oldText = newText then []
  else
    let similarity := calculateStringSimilarity oldText newText
    if ignoreMinor ∧ 95/100 < similarity then []
    else
      [{ sectionPath := sectionName
         type := .modification
         oldValue := some oldText
         newValue := some newText
         significance := determineSignificance similarity }]

/-- The key list of `new Map(sections.map(s => [s.title, s]))`: distinct
titles in first-occurrence order. -/
def sectionTitles (sections : List DocumentSection) : List String :=
  dedupKeys (sections.map (fun s => s.title))

/-- The lookup of `new Map(sections.map(s => [s.title, s]))`: for a
duplicated title the last section wins. -/
def sectionGet (sections : List DocumentSection) (title : String) :
    Option DocumentSection :=
  sections.reverse.find? (fun s => s.title = title)

/-- Source `DriftDetection.analyzeSectionChanges`: deletions (existing title
missing from the incoming map), then additions, then modifications, in the
source's loop order. -/
def analyzeSectionChanges (existingSections newSections : List DocumentSection)
    (ignoreMinor : Bool) : List DriftChange :=
  let existingKeys := sectionTitles existingSections
  let newKeys := sectionTitles newSections
  let deletions := existingKeys.filterMap fun title =>
    if title ∈ newKeys then none
    else (sectionGet existingSections title).map fun s =>
      { sectionPath := "sections." ++ title
        type := .deletion
        oldValue := some s.content
        newValue := none
        significance := .medium }
  let additions := newKeys.filterMap fun title =>
    if title ∈ existingKeys then none
    else (sectionGet newSections title).map fun s =>
      { sectionPath := "sections." ++ title
        type := .addition
        oldValue := none
        newValue := some s.content
        significance := .medium }
  let modifications := newKeys.filterMap fun title =>
    match sectionGet existingSections title, sectionGet newSections title with
    | some existingSection, some newSection =>
      if existingSection.content = newSection.content then none
      else
        let similarity :=
          calculateStringSimilarity existingSection.content newSection.content
        if ignoreMinor ∧ 95/100 < similarity then none
        else some
          { sectionPath := "sections." ++ title
            type := .modification
            oldValue := some existingSection.content
            newValue := some newSection.content
            significance := determineSignificance similarity }
    | _, _ => none
  deletions ++ additions ++ modifications

/-- Source `DriftDetection.formatMetadataValue`: arrays are joined with `", "`,
`undefined` renders as the empty string (`String(value || '')`). -/
def formatMetadataValue : MetaVal → String
  | .arr l => String.intercalate ", " l
  | .str s => s
  | .num q => if q = 0 then "" else toString q
  | .absent => ""

/-- Source `DriftDetection.determineMetadataSignificance`: a static per-field
importance table (the value arguments are accepted and ignored, as in the
source). -/
def determineMetadataSignificance (field : String) (_oldValue _newValue : MetaVal) :
    Significance :=
  if field ∈ ["serviceName", "version"] then .high
  else if field ∈ ["dependencies", "category", "businessUnit"] then .medium
  else .low

/-- Source `DriftDetection.analyzeMetadataChanges`: compare each field of
`focusAreas` (default `serviceName, version, dependencies, tags, category,
businessUnit`) by `JSON.stringify` equality, which on `MetaVal` is
structural equality. -/
def analyzeMetadataChanges (existingMetadata newMetadata : EnrichedDocumentMetadata)
    (focusAreas : Option (List String)) : List DriftChange :=
  let fieldsToCheck := focusAreas.getD
    ["serviceName", "version", "dependencies", "tags", "category", "businessUnit"]
  fieldsToCheck.filterMap fun field =>
    let oldValue := existingMetadata.get field
    let newValue := newMetadata.get field
    if oldValue ≠ newValue then
      some { sectionPath := "metadata." ++ field
             type := .modification
             oldValue := some (formatMetadataValue oldValue)
             newValue := some (formatMetadataValue newValue)
             significance := determineMetadataSignificance field oldValue newValue }
    else none

/-- Source `DriftDetection.calculateConfidence`: 1 with no changes, otherwise 0.8
less a change-count penalty capped at 0.4, less 0.15 per high-significance
and 0.08 per medium-significance change, clamped to [0.1, 1]. -/
def calculateConfidence (changes : List DriftChange) : ℚ :=
  if changes.length = 0 then 1
  else
    let base : ℚ := 8/10
    let afterCount := base - min (4/10) ((changes.length : ℚ) * (5/100))
    let highImpactChanges :=
      (changes.filter (fun c => c.significance = .high)).length
    let mediumImpactChanges :=
      (changes.filter (fun c => c.significance = .medium)).length
    let afterSignificance := afterCount -
      ((highImpactChanges : ℚ) * (15/100) + (mediumImpactChanges : ℚ) * (8/100))
    max (1/10) (min 1 afterSignificance)

/-- Source `DriftDetection.generateRecommendation`: the four-way policy, in the
source's precedence order (the source also counts medium-significance
changes there but never uses the count). -/
def generateRecommendation (changes : List DriftChange) (confidence : ℚ) :
    DriftRecommendation :=
  if changes.length = 0 then .createNew
  else
    let highImpactChanges :=
      (changes.filter (fun c => c.significance = .high)).length
    let _mediumImpactChanges :=
      (changes.filter (fun c => c.significance = .medium)).length
    let totalChanges := changes.length
    if 2 < highImpactChanges ∨ confidence < 1/2 then .manualReview
    else if totalChanges ≤ 3 ∧ highImpactChanges ≤ 1 then .updateExisting
    else if 5 < totalChanges then .createNew
    else .mergeRequired

/-- The options object of `analyzeDocuments`.  `threshold` and `focusAreas`
may be absent; `ignoreMinorChanges` is used only for its truthiness, so an
absent value is modelled as `false`. -/
structure AnalyzeOptions where
  threshold : Option ℚ := none
  ignoreMinorChanges : Bool := false
  focusAreas : Option (List String) := none
deriving DecidableEq, Repr

/-- Source `DriftDetection.analyzeDocuments`: the drift analyzer.  The source
binds `threshold` (`options.threshold || 0.7`, where a passed 0 is falsy)
but never reads it afterwards; the dead binding is kept here. -/
def analyzeDocuments (existing newDoc : EnrichedDocument)
    (options : AnalyzeOptions) : DriftAnalysis :=
  let _threshold : ℚ := match options.threshold with
    | some t => if t = 0 then SIMILARITY_THRESHOLD else t
    | none => SIMILARITY_THRESHOLD
  let titleChanges : List DriftChange :=
    if existing.enrichedContent.title ≠ newDoc.enrichedContent.title then
      let titleSimilarity := calculateStringSimilarity
        existing.enrichedContent.title newDoc.enrichedContent.title
      [{ sectionPath := "title"
         type := .modification
         oldValue := some existing.enrichedContent.title
         newValue := some newDoc.enrichedContent.title
         significance :=
           if titleSimilarity < HIGH_SIGNIFICANCE_THRESHOLD then .high else .medium }]
    else []
  let descriptionChanges := analyzeTextChanges "description"
    existing.enrichedContent.description newDoc.enrichedContent.description
    options.ignoreMinorChanges
  let purposeChanges :=
    if existing.enrichedContent.purpose ≠ newDoc.enrichedContent.purpose then
      analyzeTextChanges "purpose"
        existing.enrichedContent.purpose newDoc.enrichedContent.purpose
        options.ignoreMinorChanges
    else []
  let sectionChanges := analyzeSectionChanges
    existing.enrichedContent.sections newDoc.enrichedContent.sections
    options.ignoreMinorChanges
  let metadataChanges := analyzeMetadataChanges
    existing.metadata newDoc.metadata options.focusAreas
  let changes := titleChanges ++ descriptionChanges ++ purposeChanges ++
    sectionChanges ++ metadataChanges
  let filteredChanges :=
    if options.ignoreMinorChanges then
      changes.filter (fun c => c.significance ≠ .low)
    else changes
  { hasChanges := decide (0 < filteredChanges.length)
    confidence := calculateConfidence filteredChanges
    changes := filteredChanges
    recommendation :=
      generateRecommendation filteredChanges (calculateConfidence filteredChanges) }

/-- One entry of `compareSections`'s `modified` bucket. -/
structure ModifiedEntry where
  title : String
  existing : DocumentSection
  new : DocumentSection
  similarity : ℚ
deriving DecidableEq, Repr

/-- The result record of `compareSections`. -/
structure SectionComparison where
  added : List DocumentSection
  removed : List DocumentSection
  modified : List ModifiedEntry
  unchanged : List DocumentSection
deriving DecidableEq, Repr

/-- Source `DriftDetection.compareSections`: classify every title of the two
title-keyed maps as added, removed, modified or unchanged.  The source
fills `modified` and `unchanged` in one pass over the incoming map; here
they are two passes over the same keys, which yields the same buckets in
the same per-bucket order. -/
def compareSections (existingSections newSections : List DocumentSection) :
    SectionComparison :=
  let existingKeys := sectionTitles existingSections
  let newKeys := sectionTitles newSections
  let added := newKeys.filterMap fun title =>
    if title ∈ existingKeys then none else sectionGet newSections title
  let removed := existingKeys.filterMap fun title =>
    if title ∈ newKeys then none else sectionGet existingSections title
  let modified := newKeys.filterMap fun title =>
    match sectionGet existingSections title, sectionGet newSections title with
    | some existingSection, some newSection =>
      if existingSection.content = newSection.content then none
      else some
        { title := title
          existing := existingSection
          new := newSection
          similarity :=
            calculateStringSimilarity existingSection.content newSection.content }
    | _, _ => none
  let unchanged := newKeys.filterMap fun title =>
    match sectionGet existingSections title, sectionGet newSections title with
    | some existingSection, some newSection =>
      if existingSection.content = newSection.content then some newSection else none
    | _, _ => none
  { added := added, removed := removed, modified := modified, unchanged := unchanged }

/-- The merge-strategy tag of `createMergePreview`. -/
inductive MergeStrategyChoice where
  | preferNew
  | preferExisting
  | mergeSections
deriving DecidableEq, Repr

/-- JavaScript object spread `{...existingMetadata, ...newMetadata}` on two
metadata objects: a field defined on the incoming object wins, an absent one
falls back to the existing object's value (fields the type marks mandatory
are always defined on both). -/
def spreadMetadata (existingMetadata newMetadata : EnrichedDocumentMetadata) :
    EnrichedDocumentMetadata :=
  { serviceName := newMetadata.serviceName.or existingMetadata.serviceName
    version := newMetadata.version.or existingMetadata.version
    author := newMetadata.author.or existingMetadata.author
    dependencies := newMetadata.dependencies.or existingMetadata.dependencies
    tags := newMetadata.tags.or existingMetadata.tags
    category := newMetadata.category.or existingMetadata.category
    businessUnit := newMetadata.businessUnit.or existingMetadata.businessUnit
    enrichmentTimestamp := newMetadata.enrichmentTimestamp
    llmModel := newMetadata.llmModel
    confidence := newMetadata.confidence
    reviewStatus := newMetadata.reviewStatus
    reviewedBy := newMetadata.reviewedBy.or existingMetadata.reviewedBy }

/-- Source `DriftDetection.mergeSections`: keep unchanged sections, take the
incoming version of modified sections, append added sections, drop removed
ones; content fields come from the incoming document, metadata is
spread-merged, `enrichmentTimestamp` and `updatedAt` are stamped with the
current time (`now`, passed explicitly since the source reads the wall
clock). -/
def mergeSections (existing newDoc : EnrichedDocument) (now : String) :
    EnrichedDocument :=
  let comparison := compareSections
    existing.enrichedContent.sections newDoc.enrichedContent.sections
  let mergedSections : List DocumentSection :=
    comparison.unchanged ++ comparison.modified.map (fun m => m.new) ++
      comparison.added
  { existing with
    enrichedContent := { newDoc.enrichedContent with sections := mergedSections }
    metadata := { spreadMetadata existing.metadata newDoc.metadata with
                  enrichmentTimestamp := now }
    updatedAt := now }

/-- Source `DriftDetection.createMergePreview`: dispatch on the merge strategy
(`now` stands for `new Date().toISOString()`). -/
def createMergePreview (existing newDoc : EnrichedDocument)
    (strategy : MergeStrategyChoice) (now : String) : EnrichedDocument :=
  match strategy with
  | .preferNew =>
    { newDoc with
      id := existing.id
      createdAt := existing.createdAt
      updatedAt := now }
  | .preferExisting =>
    { existing with updatedAt := now }
  | .mergeSections => mergeSections existing newDoc now

/-- Structure `DocumentContent` as it can exist at runtime behind the enrichment
fallback paths: the `sections` field may be absent (`undefined`). -/
structure DocumentContentRT where
  title : String
  summary : String
  description : String
  purpose : String
  sections : Option (List DocumentSection)
deriving DecidableEq, Repr

/-- Structure `EnrichedDocument` with a possibly absent `sections` list. -/
structure EnrichedDocumentRT where
  id : Option String
  originalInput : DocumentInput
  enrichedContent : DocumentContentRT
  metadata : EnrichedDocumentMetadata
  structuredData : List (String × String)
  createdAt : String
  updatedAt : String
deriving DecidableEq, Repr

/-- Strip the runtime wrapper once both section lists are known present. -/
def EnrichedDocumentRT.withSections (d : EnrichedDocumentRT)
    (sections : List DocumentSection) : EnrichedDocument :=
  { id := d.id
    originalInput := d.originalInput
    enrichedContent :=
      { title := d.enrichedContent.title
        summary := d.enrichedContent.summary
        description := d.enrichedContent.description
        purpose := d.enrichedContent.purpose
        sections := sections }
    metadata := d.metadata
    structuredData := d.structuredData
    createdAt := d.createdAt
    updatedAt := d.updatedAt }

/-- Runtime behaviour of `analyzeDocuments` on documents whose `sections`
field may be absent: `analyzeSectionChanges` immediately evaluates
`existingSections.map(...)` / `newSections.map(...)` inside `new Map(...)`,
so an absent list raises a `TypeError` instead of being treated as empty;
every other step is as in `analyzeDocuments`. -/
def analyzeDocumentsRT (existing newDoc : EnrichedDocumentRT)
    (options : AnalyzeOptions) : Except String DriftAnalysis :=
  match existing.enrichedContent.sections, newDoc.enrichedContent.sections with
  | some existingSections, some newSections =>
    .ok (analyzeDocuments (existing.withSections existingSections)
      (newDoc.withSections newSections) options)
  | _, _ =>
    .error "TypeError: Cannot read properties of undefined (reading map)"

/-- A concrete section used by witness instantiations. -/
def sampleSectionA : DocumentSection :=
  { title := "A", content := "x", sectionType := "overview" }

/-- A concrete metadata record used by witness instantiations. -/
def sampleMetadata : EnrichedDocumentMetadata :=
  { serviceName := some "auth-service"
    version := some "1.0.0"
    author := none
    dependencies := some ["postgres"]
    tags := some ["auth"]
    category := some "core"
    businessUnit := none
    enrichmentTimestamp := "2024-01-01T00:00:00Z"
    llmModel := "gpt-4"
    confidence := 9/10
    reviewStatus := "pending"
    reviewedBy := none }

/-- A concrete raw input used by witness instantiations. -/
def sampleInput : DocumentInput :=
  { content := "auth service handles login"
    type := "microservice"
    metadata :=
      { serviceName := some "auth-service"
        version := some "1.0.0"
        author := none
        dependencies := none
        tags := none
        category := none
        businessUnit := none } }

/-- A concrete enriched document used by witness instantiations. -/
def sampleDoc : EnrichedDocument :=
  { id := some "doc-1"
    originalInput := sampleInput
    enrichedContent :=
      { title := "Auth Service"
        summary := "Login service"
        description := "Handles authentication"
        purpose := "Authenticate users"
        sections := [{ title := "Overview", content := "The auth service",
                       sectionType := "overview" }] }
    metadata := sampleMetadata
    structuredData := []
    createdAt := "2024-01-01T00:00:00Z"
    updatedAt := "2024-01-01T00:00:00Z" }

/-- Document `sampleDoc` with the incoming title of the C1 scenario and everything
else unchanged. -/
def sampleDocRenamed : EnrichedDocument :=
  { sampleDoc with
    enrichedContent :=
      { sampleDoc.enrichedContent with title := "Authentication Service" } }

/-- The single title change reported in the C1 scenario. -/
def authTitleChange : DriftChange :=
  { sectionPath := "title"
    type := .modification
    oldValue := some "Auth Service"
    newValue := some "Authentication Service"
    significance := .high }

/-- The full analysis record reported in the C1 scenario. -/
def authTitleAnalysis : DriftAnalysis :=
  { hasChanges := true
    confidence := 3/5
    changes := [authTitleChange]
    recommendation := .updateExisting }

/-- Document `sampleDoc` with an empty section list: merging it as the incoming
document removes the "Overview" section. -/
def sampleDocNoSections : EnrichedDocument :=
  { sampleDoc with
    enrichedContent := { sampleDoc.enrichedContent with sections := [] } }

/-- Document `sampleDoc` as it can exist at runtime with the `sections` field
absent (`undefined`). -/
def sampleDocMissingSections : EnrichedDocumentRT :=
  { id := some "doc-1"
    originalInput := sampleInput
    enrichedContent :=
      { title := "Auth Service"
        summary := "Login service"
        description := "Handles authentication"
        purpose := "Authenticate users"
        sections := none }
    metadata := sampleMetadata
    structuredData := []
    createdAt := "2024-01-01T00:00:00Z"
    updatedAt := "2024-01-01T00:00:00Z" }

theorem mem_dedupKeys {t : String} : ∀ {l : List String}, t ∈ dedupKeys l ↔ t ∈ l
  | [] => Iff.rfl
  | a :: ts => by
    simp only [dedupKeys, List.mem_cons, List.mem_filter,
      mem_dedupKeys (l := ts), decide_eq_true_eq]
    by_cases hta : t = a
    · simp [hta]
    · simp [hta]

theorem nodup_dedupKeys : ∀ l : List String, (dedupKeys l).Nodup
  | [] => List.nodup_nil
  | a :: ts => by
    simp only [dedupKeys]
    refine List.Nodup.cons ?_ (List.Nodup.filter _ (nodup_dedupKeys ts))
    simp

theorem sectionGet_title {l : List DocumentSection} {t : String}
    {s : DocumentSection} (h : sectionGet l t = some s) : s.title = t := by
  have := List.find?_some h
  simpa using this

theorem sectionGet_isSome_iff {l : List DocumentSection} {t : String} :
    (sectionGet l t).isSome ↔ t ∈ l.map (fun s => s.title) := by
  simp only [sectionGet, List.find?_isSome, List.mem_reverse, List.mem_map,
    decide_eq_true_eq]

theorem sectionGet_eq_none {l : List DocumentSection} {t : String}
    (h : t ∉ l.map (fun s => s.title)) : sectionGet l t = none := by
  rcases he : sectionGet l t with _ | s
  · rfl
  · exact absurd (sectionGet_isSome_iff.mp (by simp [he])) h

theorem mem_sectionTitles {l : List DocumentSection} {t : String} :
    t ∈ sectionTitles l ↔ t ∈ l.map (fun s => s.title) := by
  simp only [sectionTitles, mem_dedupKeys]

theorem sectionGet_isSome_of_mem_titles {l : List DocumentSection} {t : String}
    (h : t ∈ sectionTitles l) : ∃ s, sectionGet l t = some s := by
  have := sectionGet_isSome_iff.mpr (mem_sectionTitles.mp h)
  exact Option.isSome_iff_exists.mp this

theorem analyzeTextChanges_self (sectionName t : String) (ignoreMinor : Bool) :
    analyzeTextChanges sectionName t t ignoreMinor = [] := by
  simp [analyzeTextChanges]

theorem analyzeSectionChanges_self (l : List DocumentSection) (ignoreMinor : Bool) :
    analyzeSectionChanges l l ignoreMinor = [] := by
  simp only [analyzeSectionChanges, List.append_eq_nil, List.filterMap_eq_nil_iff]
  refine ⟨⟨fun t ht => ?_, fun t ht => ?_⟩, fun t ht => ?_⟩
  · simp [ht]
  · simp [ht]
  · rcases he : sectionGet l t with _ | s
    · simp
    · simp [he]

theorem analyzeMetadataChanges_self (m : EnrichedDocumentMetadata)
    (focusAreas : Option (List String)) :
    analyzeMetadataChanges m m focusAreas = [] := by
  simp [analyzeMetadataChanges]

theorem mem_added_titles {existingSections newSections : List DocumentSection}
    {t : String} :
    t ∈ (compareSections existingSections newSections).added.map (fun s => s.title) ↔
      t ∈ sectionTitles newSections ∧ t ∉ sectionTitles existingSections := by
  simp only [compareSections, List.mem_map, List.mem_filterMap]
  constructor
  · rintro ⟨s, ⟨a, ha, hfa⟩, hst⟩
    by_cases hax : a ∈ sectionTitles existingSections
    · simp [hax] at hfa
    · rw [if_neg hax] at hfa
      have hta := sectionGet_title hfa
      subst hst
      rw [hta]
      exact ⟨ha, hax⟩
  · rintro ⟨h1, h2⟩
    obtain ⟨s, hs⟩ := sectionGet_isSome_of_mem_titles h1
    exact ⟨s, ⟨t, h1, by rw [if_neg h2]; exact hs⟩, sectionGet_title hs⟩

theorem mem_removed_titles {existingSections newSections : List DocumentSection}
    {t : String} :
    t ∈ (compareSections existingSections newSections).removed.map (fun s => s.title) ↔
      t ∈ sectionTitles existingSections ∧ t ∉ sectionTitles newSections := by
  simp only [compareSections, List.mem_map, List.mem_filterMap]
  constructor
  · rintro ⟨s, ⟨a, ha, hfa⟩, hst⟩
    by_cases hax : a ∈ sectionTitles newSections
    · simp [hax] at hfa
    · rw [if_neg hax] at hfa
      have hta := sectionGet_title hfa
      subst hst
      rw [hta]
      exact ⟨ha, hax⟩
  · rintro ⟨h1, h2⟩
    obtain ⟨s, hs⟩ := sectionGet_isSome_of_mem_titles h1
    exact ⟨s, ⟨t, h1, by rw [if_neg h2]; exact hs⟩, sectionGet_title hs⟩

theorem mem_modified_titles {existingSections newSections : List DocumentSection}
    {t : String} :
    t ∈ (compareSections existingSections newSections).modified.map (fun m => m.title) ↔
      ∃ s1 s2, sectionGet existingSections t = some s1 ∧
        sectionGet newSections t = some s2 ∧ s1.content ≠ s2.content := by
  simp only [compareSections, List.mem_map, List.mem_filterMap]
  constructor
  · rintro ⟨m, ⟨a, ha, hfa⟩, hmt⟩
    rcases h1 : sectionGet existingSections a with _ | s1 <;> rw [h1] at hfa
    · simp at hfa
    rcases h2 : sectionGet newSections a with _ | s2 <;> rw [h2] at hfa
    · simp at hfa
    have hfa' : (if s1.content = s2.content then none
        else some (⟨a, s1, s2, calculateStringSimilarity s1.content s2.content⟩ :
          ModifiedEntry)) = some m := hfa
    by_cases hc : s1.content = s2.content
    · rw [if_pos hc] at hfa'
      exact absurd hfa' (by simp)
    · rw [if_neg hc] at hfa'
      obtain rfl := Option.some.inj hfa'
      obtain rfl : a = t := hmt
      exact ⟨s1, s2, h1, h2, hc⟩
  · rintro ⟨s1, s2, h1, h2, hc⟩
    have hm : t ∈ sectionTitles newSections :=
      mem_sectionTitles.mpr (sectionGet_isSome_iff.mp (by simp [h2]))
    refine ⟨⟨t, s1, s2, calculateStringSimilarity s1.content s2.content⟩,
      ⟨t, hm, ?_⟩, rfl⟩
    rw [h1, h2]
    show (if s1.content = s2.content then none
      else some (⟨t, s1, s2, calculateStringSimilarity s1.content s2.content⟩ :
        ModifiedEntry)) = _
    rw [if_neg hc]

theorem mem_unchanged_titles {existingSections newSections : List DocumentSection}
    {t : String} :
    t ∈ (compareSections existingSections newSections).unchanged.map (fun s => s.title) ↔
      ∃ s1 s2, sectionGet existingSections t = some s1 ∧
        sectionGet newSections t = some s2 ∧ s1.content = s2.content := by
  simp only [compareSections, List.mem_map, List.mem_filterMap]
  constructor
  · rintro ⟨s, ⟨a, ha, hfa⟩, hst⟩
    rcases h1 : sectionGet existingSections a with _ | s1 <;> rw [h1] at hfa
    · simp at hfa
    rcases h2 : sectionGet newSections a with _ | s2 <;> rw [h2] at hfa
    · simp at hfa
    have hfa' : (if s1.content = s2.content then some s2 else none) = some s := hfa
    by_cases hc : s1.content = s2.content
    · rw [if_pos hc] at hfa'
      obtain rfl := Option.some.inj hfa'
      have hta := sectionGet_title h2
      subst hst
      rw [hta]
      exact ⟨s1, s2, h1, h2, hc⟩
    · rw [if_neg hc] at hfa'
      exact absurd hfa' (by simp)
  · rintro ⟨s1, s2, h1, h2, hc⟩
    have hm : t ∈ sectionTitles newSections :=
      mem_sectionTitles.mpr (sectionGet_isSome_iff.mp (by simp [h2]))
    refine ⟨s2, ⟨t, hm, ?_⟩, sectionGet_title h2⟩
    rw [h1, h2]
    show (if s1.content = s2.content then some s2 else none) = _
    rw [if_pos hc]

theorem modified_new_title {existingSections newSections : List DocumentSection}
    {m : ModifiedEntry}
    (h : m ∈ (compareSections existingSections newSections).modified) :
    m.new.title = m.title := by
  simp only [compareSections, List.mem_filterMap] at h
  obtain ⟨a, _, hfa⟩ := h
  rcases h1 : sectionGet existingSections a with _ | s1 <;> rw [h1] at hfa
  · simp at hfa
  rcases h2 : sectionGet newSections a with _ | s2 <;> rw [h2] at hfa
  · simp at hfa
  have hfa' : (if s1.content = s2.content then none
      else some (⟨a, s1, s2, calculateStringSimilarity s1.content s2.content⟩ :
        ModifiedEntry)) = some m := hfa
  by_cases hc : s1.content = s2.content
  · rw [if_pos hc] at hfa'
    exact absurd hfa' (by simp)
  · rw [if_neg hc] at hfa'
    obtain rfl := Option.some.inj hfa'
    exact sectionGet_title h2

theorem inter_length_le_union_length (a b : String) :
    ((tokenSet a).filter (fun x => x ∈ tokenSet b)).length ≤
      (dedupKeys (tokenSet a ++ tokenSet b)).length := by
  apply List.Subperm.length_le
  apply List.subperm_of_subset
  · exact List.Nodup.filter _ (nodup_dedupKeys _)
  · intro x hx
    rw [mem_dedupKeys]
    exact List.mem_append_left _ (List.mem_of_mem_filter hx)

/-- C8: `calculateStringSimilarity` always lands in [0, 1]; an empty token
union is defined as similarity 1 (no division by zero), and in particular
two empty strings compare as identical. -/
theorem calculateStringSimilarity_unit_interval (a b : String) :
    (0 ≤ calculateStringSimilarity a b ∧ calculateStringSimilarity a b ≤ 1 ∧
      (dedupKeys (tokenSet a ++ tokenSet b) = [] →
        calculateStringSimilarity a b = 1)) ∧
      calculateStringSimilarity "" "" = 1 := by
  refine ⟨⟨?_, ?_, ?_⟩, ?_⟩
  · simp only [calculateStringSimilarity]
    split
    · norm_num
    · exact div_nonneg (Nat.cast_nonneg _) (Nat.cast_nonneg _)
  · simp only [calculateStringSimilarity]
    split
    · norm_num
    · exact div_le_one_of_le₀ (Nat.cast_le.mpr (inter_length_le_union_length a b))
        (Nat.cast_nonneg _)
  · intro h
    simp [calculateStringSimilarity, h]
  · have h3 : (List.filter (fun x => x ∈ tokenSet "") (tokenSet "")).length = 1 := by
      decide
    have h4 : (dedupKeys (tokenSet "" ++ tokenSet "")).length = 1 := by decide
    simp only [calculateStringSimilarity, h3, h4]
    norm_num

/-- C5: `compareSections` partitions the title set: every title occurring
in either input list lands in exactly one of the four buckets added,
removed, modified, unchanged. -/
theorem compareSections_partition
    (existingSections newSections : List DocumentSection) (t : String)
    (h : t ∈ existingSections.map (fun s => s.title) ∨
      t ∈ newSections.map (fun s => s.title)) :
    (t ∈ (compareSections existingSections newSections).added.map (fun s => s.title) ∧
      t ∉ (compareSections existingSections newSections).removed.map (fun s => s.title) ∧
      t ∉ (compareSections existingSections newSections).modified.map (fun m => m.title) ∧
      t ∉ (compareSections existingSections newSections).unchanged.map (fun s => s.title)) ∨
    (t ∉ (compareSections existingSections newSections).added.map (fun s => s.title) ∧
      t ∈ (compareSections existingSections newSections).removed.map (fun s => s.title) ∧
      t ∉ (compareSections existingSections newSections).modified.map (fun m => m.title) ∧
      t ∉ (compareSections existingSections newSections).unchanged.map (fun s => s.title)) ∨
    (t ∉ (compareSections existingSections newSections).added.map (fun s => s.title) ∧
      t ∉ (compareSections existingSections newSections).removed.map (fun s => s.title) ∧
      t ∈ (compareSections existingSections newSections).modified.map (fun m => m.title) ∧
      t ∉ (compareSections existingSections newSections).unchanged.map (fun s => s.title)) ∨
    (t ∉ (compareSections existingSections newSections).added.map (fun s => s.title) ∧
      t ∉ (compareSections existingSections newSections).removed.map (fun s => s.title) ∧
      t ∉ (compareSections existingSections newSections).modified.map (fun m => m.title) ∧
      t ∈ (compareSections existingSections newSections).unchanged.map (fun s => s.title)) := by
  by_cases he : t ∈ sectionTitles existingSections <;>
    by_cases hn : t ∈ sectionTitles newSections
  · obtain ⟨s1, h1⟩ := sectionGet_isSome_of_mem_titles he
    obtain ⟨s2, h2⟩ := sectionGet_isSome_of_mem_titles hn
    by_cases hc : s1.content = s2.content
    · refine Or.inr (Or.inr (Or.inr ⟨?_, ?_, ?_, ?_⟩))
      · intro hmem
        exact (mem_added_titles.mp hmem).2 he
      · intro hmem
        exact (mem_removed_titles.mp hmem).2 hn
      · intro hmem
        obtain ⟨s1', s2', h1', h2', hc'⟩ := mem_modified_titles.mp hmem
        rw [h1] at h1'
        rw [h2] at h2'
        obtain rfl := Option.some.inj h1'
        obtain rfl := Option.some.inj h2'
        exact hc' hc
      · exact mem_unchanged_titles.mpr ⟨s1, s2, h1, h2, hc⟩
    · refine Or.inr (Or.inr (Or.inl ⟨?_, ?_, ?_, ?_⟩))
      · intro hmem
        exact (mem_added_titles.mp hmem).2 he
      · intro hmem
        exact (mem_removed_titles.mp hmem).2 hn
      · exact mem_modified_titles.mpr ⟨s1, s2, h1, h2, hc⟩
      · intro hmem
        obtain ⟨s1', s2', h1', h2', hc'⟩ := mem_unchanged_titles.mp hmem
        rw [h1] at h1'
        rw [h2] at h2'
        obtain rfl := Option.some.inj h1'
        obtain rfl := Option.some.inj h2'
        exact hc hc'
  · refine Or.inr (Or.inl ⟨?_, mem_removed_titles.mpr ⟨he, hn⟩, ?_, ?_⟩)
    · intro hmem
      exact hn (mem_added_titles.mp hmem).1
    · intro hmem
      obtain ⟨s1', s2', _, h2', _⟩ := mem_modified_titles.mp hmem
      exact hn (mem_sectionTitles.mpr (sectionGet_isSome_iff.mp (by simp [h2'])))
    · intro hmem
      obtain ⟨s1', s2', _, h2', _⟩ := mem_unchanged_titles.mp hmem
      exact hn (mem_sectionTitles.mpr (sectionGet_isSome_iff.mp (by simp [h2'])))
  · refine Or.inl ⟨mem_added_titles.mpr ⟨hn, he⟩, ?_, ?_, ?_⟩
    · intro hmem
      exact he (mem_removed_titles.mp hmem).1
    · intro hmem
      obtain ⟨s1', s2', h1', _, _⟩ := mem_modified_titles.mp hmem
      exact he (mem_sectionTitles.mpr (sectionGet_isSome_iff.mp (by simp [h1'])))
    · intro hmem
      obtain ⟨s1', s2', h1', _, _⟩ := mem_unchanged_titles.mp hmem
      exact he (mem_sectionTitles.mpr (sectionGet_isSome_iff.mp (by simp [h1'])))
  · rcases h with h | h
    · exact absurd (mem_sectionTitles.mpr h) he
    · exact absurd (mem_sectionTitles.mpr h) hn

/-- C4: analyzing a document against itself (under any options) reports no
drift: no changes, confidence 1, recommendation create-new. -/
theorem analyze_self_no_drift (d : EnrichedDocument) (options : AnalyzeOptions) :
    analyzeDocuments d d options =
      { hasChanges := false, confidence := 1, changes := [],
        recommendation := DriftRecommendation.createNew } := by
  simp [analyzeDocuments, analyzeTextChanges_self, analyzeSectionChanges_self,
    analyzeMetadataChanges_self, calculateConfidence, generateRecommendation]

/-- C2: the confidence of an analysis is 1 on an empty change list and
otherwise 0.8, less the change-count penalty min(0.4, n·0.05), less 0.15
per high-significance and 0.08 per medium-significance change, clamped
into [0.1, 1]. -/
theorem analyze_confidence_formula (existing newDoc : EnrichedDocument)
    (options : AnalyzeOptions) :
    (analyzeDocuments existing newDoc options).confidence =
      if (analyzeDocuments existing newDoc options).changes.length = 0 then 1
      else
        max (1/10) (min 1 ((8/10 : ℚ) -
          min (4/10)
            (((analyzeDocuments existing newDoc options).changes.length : ℚ) * (5/100)) -
          ((((analyzeDocuments existing newDoc options).changes.filter
              (fun c => c.significance = Significance.high)).length : ℚ) * (15/100) +
           (((analyzeDocuments existing newDoc options).changes.filter
              (fun c => c.significance = Significance.medium)).length : ℚ) * (8/100)))) := by
  have hc : (analyzeDocuments existing newDoc options).confidence =
      calculateConfidence (analyzeDocuments existing newDoc options).changes := rfl
  rw [hc]
  rfl

/-- C3: the recommendation of an analysis follows the source's precedence:
empty change list → create-new; more than two high-significance changes or
confidence below 0.5 → manual-review; at most three changes with at most
one high-significance → update-existing; more than five changes →
create-new; otherwise merge-required. -/
theorem analyze_recommendation_policy (existing newDoc : EnrichedDocument)
    (options : AnalyzeOptions) :
    (analyzeDocuments existing newDoc options).recommendation =
      if (analyzeDocuments existing newDoc options).changes.length = 0 then
        DriftRecommendation.createNew
      else if 2 < ((analyzeDocuments existing newDoc options).changes.filter
            (fun c => c.significance = Significance.high)).length ∨
          (analyzeDocuments existing newDoc options).confidence < 1/2 then
        DriftRecommendation.manualReview
      else if (analyzeDocuments existing newDoc options).changes.length ≤ 3 ∧
          ((analyzeDocuments existing newDoc options).changes.filter
            (fun c => c.significance = Significance.high)).length ≤ 1 then
        DriftRecommendation.updateExisting
      else if 5 < (analyzeDocuments existing newDoc options).changes.length then
        DriftRecommendation.createNew
      else DriftRecommendation.mergeRequired := by
  have hr : (analyzeDocuments existing newDoc options).recommendation =
      generateRecommendation (analyzeDocuments existing newDoc options).changes
        (calculateConfidence (analyzeDocuments existing newDoc options).changes) := rfl
  have hc : calculateConfidence (analyzeDocuments existing newDoc options).changes =
      (analyzeDocuments existing newDoc options).confidence := rfl
  rw [hr, generateRecommendation, hc]

/-- C7: merging with strategy prefer-existing is a frame: every field of
the result equals the existing document's, except `updatedAt`, which is
set to the current time. -/
theorem createMergePreview_preferExisting_frame
    (existing newDoc : EnrichedDocument) (now : String) :
    (createMergePreview existing newDoc .preferExisting now).id = existing.id ∧
    (createMergePreview existing newDoc .preferExisting now).originalInput =
      existing.originalInput ∧
    (createMergePreview existing newDoc .preferExisting now).enrichedContent =
      existing.enrichedContent ∧
    (createMergePreview existing newDoc .preferExisting now).metadata =
      existing.metadata ∧
    (createMergePreview existing newDoc .preferExisting now).structuredData =
      existing.structuredData ∧
    (createMergePreview existing newDoc .preferExisting now).createdAt =
      existing.createdAt ∧
    (createMergePreview existing newDoc .preferExisting now).updatedAt = now :=
  ⟨rfl, rfl, rfl, rfl, rfl, rfl, rfl⟩

/-- C10: the `threshold` option is dead: two analyses of the same
documents whose options agree on `ignoreMinorChanges` and `focusAreas`
return identical results whatever their `threshold` fields are. -/
theorem analyze_threshold_irrelevant (existing newDoc : EnrichedDocument)
    (o1 o2 : AnalyzeOptions)
    (h1 : o1.ignoreMinorChanges = o2.ignoreMinorChanges)
    (h2 : o1.focusAreas = o2.focusAreas) :
    analyzeDocuments existing newDoc o1 = analyzeDocuments existing newDoc o2 := by
  obtain ⟨t1, i1, f1⟩ := o1
  obtain ⟨t2, i2, f2⟩ := o2
  cases h1
  cases h2
  rfl

/-- Witness for C5 at a concrete input: with one existing section titled
"A" and no incoming sections, the title "A" lands exactly in the removed
bucket. -/
theorem compareSections_partition_witness :
    ("A" ∈ [sampleSectionA].map (fun s => s.title) ∨
      "A" ∈ ([] : List DocumentSection).map (fun s => s.title)) ∧
    ((("A" ∈ (compareSections [sampleSectionA] []).added.map (fun s => s.title) ∧
      "A" ∉ (compareSections [sampleSectionA] []).removed.map (fun s => s.title) ∧
      "A" ∉ (compareSections [sampleSectionA] []).modified.map (fun m => m.title) ∧
      "A" ∉ (compareSections [sampleSectionA] []).unchanged.map (fun s => s.title)) ∨
    ("A" ∉ (compareSections [sampleSectionA] []).added.map (fun s => s.title) ∧
      "A" ∈ (compareSections [sampleSectionA] []).removed.map (fun s => s.title) ∧
      "A" ∉ (compareSections [sampleSectionA] []).modified.map (fun m => m.title) ∧
      "A" ∉ (compareSections [sampleSectionA] []).unchanged.map (fun s => s.title)) ∨
    ("A" ∉ (compareSections [sampleSectionA] []).added.map (fun s => s.title) ∧
      "A" ∉ (compareSections [sampleSectionA] []).removed.map (fun s => s.title) ∧
      "A" ∈ (compareSections [sampleSectionA] []).modified.map (fun m => m.title) ∧
      "A" ∉ (compareSections [sampleSectionA] []).unchanged.map (fun s => s.title)) ∨
    ("A" ∉ (compareSections [sampleSectionA] []).added.map (fun s => s.title) ∧
      "A" ∉ (compareSections [sampleSectionA] []).removed.map (fun s => s.title) ∧
      "A" ∉ (compareSections [sampleSectionA] []).modified.map (fun m => m.title) ∧
      "A" ∈ (compareSections [sampleSectionA] []).unchanged.map (fun s => s.title)))) :=
  ⟨Or.inl (by decide),
    compareSections_partition [sampleSectionA] [] "A" (Or.inl (by decide))⟩

/-- Witness for C10 at a concrete input: a threshold of 0.3 and an absent
threshold give the same analysis of `sampleDoc` against
`sampleDocRenamed`. -/
theorem analyze_threshold_irrelevant_witness :
    (({ threshold := some (3/10) } : AnalyzeOptions).ignoreMinorChanges =
        ({} : AnalyzeOptions).ignoreMinorChanges ∧
      ({ threshold := some (3/10) } : AnalyzeOptions).focusAreas =
        ({} : AnalyzeOptions).focusAreas) ∧
    analyzeDocuments sampleDoc sampleDocRenamed { threshold := some (3/10) } =
      analyzeDocuments sampleDoc sampleDocRenamed {} :=
  ⟨⟨rfl, rfl⟩,
    analyze_threshold_irrelevant sampleDoc sampleDocRenamed _ _ rfl rfl⟩

theorem authServiceSimilarity :
    calculateStringSimilarity "Auth Service" "Authentication Service" = 1/3 := by
  have h3 : (List.filter (fun x => x ∈ tokenSet "Authentication Service")
      (tokenSet "Auth Service")).length = 1 := by decide
  have h4 : (dedupKeys
      (tokenSet "Auth Service" ++ tokenSet "Authentication Service")).length = 3 := by
    decide
  simp only [calculateStringSimilarity, h3, h4]
  norm_num

theorem calculateConfidence_single_high (c : DriftChange)
    (h : c.significance = Significance.high) :
    calculateConfidence [c] = 3/5 := by
  simp [calculateConfidence, h]
  norm_num [min_def, max_def]

theorem generateRecommendation_single_high (c : DriftChange)
    (h : c.significance = Significance.high) :
    generateRecommendation [c] (3/5) = DriftRecommendation.updateExisting := by
  simp [generateRecommendation, h]
  norm_num

theorem analyze_auth_title_general (existing newDoc : EnrichedDocument)
    (ht1 : existing.enrichedContent.title = "Auth Service")
    (ht2 : newDoc.enrichedContent.title = "Authentication Service")
    (hd : existing.enrichedContent.description = newDoc.enrichedContent.description)
    (hp : existing.enrichedContent.purpose = newDoc.enrichedContent.purpose)
    (hs : existing.enrichedContent.sections = newDoc.enrichedContent.sections)
    (hm : existing.metadata = newDoc.metadata) :
    analyzeDocuments existing newDoc {} = authTitleAnalysis := by
  have hne : ¬ ("Auth Service" : String) = "Authentication Service" := by decide
  simp only [analyzeDocuments, ht1, ht2, hd, hp, hs, hm, analyzeTextChanges_self,
    analyzeSectionChanges_self, analyzeMetadataChanges_self, authServiceSimilarity,
    ne_eq, not_true_eq_false, if_false, hne, not_false_eq_true, if_true,
    List.append_nil, List.nil_append]
  rw [if_pos (show (1:ℚ)/3 < HIGH_SIGNIFICANCE_THRESHOLD by
    norm_num [HIGH_SIGNIFICANCE_THRESHOLD])]
  simp only [Bool.false_eq_true, if_false]
  show DriftAnalysis.mk _ _ _ _ = _
  rw [authTitleAnalysis, DriftAnalysis.mk.injEq]
  refine ⟨rfl, ?_, rfl, ?_⟩
  · exact calculateConfidence_single_high authTitleChange rfl
  · have hc := calculateConfidence_single_high
      { sectionPath := "title", type := ChangeType.modification,
        oldValue := some "Auth Service", newValue := some "Authentication Service",
        significance := Significance.high } rfl
    rw [hc]
    exact generateRecommendation_single_high _ rfl

/-- C1 counterexample: for the concrete pair existing = `sampleDoc`
(title "Auth Service") and incoming = `sampleDocRenamed` (title
"Authentication Service", otherwise identical), the title similarity is
1/3 — not 2/3 as claimed — and the single reported title change has
significance high, not medium. -/
theorem analyze_auth_title_counterexample :
    calculateStringSimilarity "Auth Service" "Authentication Service" = 1/3 ∧
    ¬ (calculateStringSimilarity "Auth Service" "Authentication Service" = 2/3) ∧
    (analyzeDocuments sampleDoc sampleDocRenamed {}).changes.map
      (fun c => c.significance) = [Significance.high] ∧
    ¬ ((analyzeDocuments sampleDoc sampleDocRenamed {}).changes.map
      (fun c => c.significance) = [Significance.medium]) := by
  have heval := analyze_auth_title_general sampleDoc sampleDocRenamed
    rfl rfl rfl rfl rfl rfl
  refine ⟨authServiceSimilarity, ?_, ?_, ?_⟩
  · rw [authServiceSimilarity]
    norm_num
  · rw [heval]
    rfl
  · rw [heval]
    simp [authTitleAnalysis, authTitleChange]

/-- C1 (amended): for an existing document titled "Auth Service" and an
incoming document titled "Authentication Service" that are otherwise
identical, analyze with default options returns exactly one change, for
section "title", of type modification, whose similarity is 1/3 and whose
significance is high (since 1/3 < 0.5), and the recommendation is
update-existing (total changes = 1, high-significance count = 1 ≤ 1,
confidence 0.6 ≥ 0.5). -/
theorem analyze_auth_title_drift (existing newDoc : EnrichedDocument)
    (ht1 : existing.enrichedContent.title = "Auth Service")
    (ht2 : newDoc.enrichedContent.title = "Authentication Service")
    (hd : existing.enrichedContent.description = newDoc.enrichedContent.description)
    (hp : existing.enrichedContent.purpose = newDoc.enrichedContent.purpose)
    (hs : existing.enrichedContent.sections = newDoc.enrichedContent.sections)
    (hm : existing.metadata = newDoc.metadata) :
    calculateStringSimilarity existing.enrichedContent.title
      newDoc.enrichedContent.title = 1/3 ∧
    analyzeDocuments existing newDoc {} = authTitleAnalysis := by
  constructor
  · rw [ht1, ht2]
    exact authServiceSimilarity
  · exact analyze_auth_title_general existing newDoc ht1 ht2 hd hp hs hm

/-- Witness for C1 (amended) at the concrete pair `sampleDoc` /
`sampleDocRenamed`. -/
theorem analyze_auth_title_drift_witness :
    calculateStringSimilarity sampleDoc.enrichedContent.title
      sampleDocRenamed.enrichedContent.title = 1/3 ∧
    analyzeDocuments sampleDoc sampleDocRenamed {} = authTitleAnalysis :=
  analyze_auth_title_drift sampleDoc sampleDocRenamed rfl rfl rfl rfl rfl rfl

theorem mem_mergedSections_titles
    {existingSections newSections : List DocumentSection} {t : String} :
    t ∈ ((compareSections existingSections newSections).unchanged ++
      (compareSections existingSections newSections).modified.map (fun m => m.new) ++
      (compareSections existingSections newSections).added).map (fun s => s.title) ↔
    t ∈ sectionTitles newSections := by
  rw [List.map_append, List.map_append, List.mem_append, List.mem_append]
  constructor
  · rintro ((h | h) | h)
    · obtain ⟨s1, s2, h1, h2, _⟩ := mem_unchanged_titles.mp h
      exact mem_sectionTitles.mpr (sectionGet_isSome_iff.mp (by simp [h2]))
    · rw [List.map_map] at h
      obtain ⟨m, hm, hmt⟩ := List.mem_map.mp h
      have hnew := modified_new_title hm
      have hmem : t ∈ (compareSections existingSections newSections).modified.map
          (fun m => m.title) := by
        refine List.mem_map.mpr ⟨m, hm, ?_⟩
        rw [← hnew]
        exact hmt
      obtain ⟨s1, s2, h1, h2, _⟩ := mem_modified_titles.mp hmem
      exact mem_sectionTitles.mpr (sectionGet_isSome_iff.mp (by simp [h2]))
    · exact (mem_added_titles.mp h).1
  · intro hn
    obtain ⟨s2, h2⟩ := sectionGet_isSome_of_mem_titles hn
    by_cases he : t ∈ sectionTitles existingSections
    · obtain ⟨s1, h1⟩ := sectionGet_isSome_of_mem_titles he
      by_cases hcont : s1.content = s2.content
      · exact Or.inl (Or.inl (mem_unchanged_titles.mpr ⟨s1, s2, h1, h2, hcont⟩))
      · refine Or.inl (Or.inr ?_)
        rw [List.map_map]
        have hmem := mem_modified_titles.mpr ⟨s1, s2, h1, h2, hcont⟩
        obtain ⟨m, hm, hmt⟩ := List.mem_map.mp hmem
        refine List.mem_map.mpr ⟨m, hm, ?_⟩
        show m.new.title = t
        rw [modified_new_title hm]
        exact hmt
    · exact Or.inr (mem_added_titles.mpr ⟨hn, he⟩)

/-- C6: after a merge-sections merge, re-diffing the existing sections
against the merged sections reports as removed no title that the original
comparison classified unchanged or modified; a title of either document is
absent from the merged section list exactly when the original comparison
classified it removed. -/
theorem mergeSections_roundtrip (existing newDoc : EnrichedDocument)
    (now t : String)
    (h : t ∈ existing.enrichedContent.sections.map (fun s => s.title) ∨
      t ∈ newDoc.enrichedContent.sections.map (fun s => s.title)) :
    (¬ (t ∈ (compareSections existing.enrichedContent.sections
          (createMergePreview existing newDoc .mergeSections
            now).enrichedContent.sections).removed.map (fun s => s.title) ∧
        (t ∈ (compareSections existing.enrichedContent.sections
            newDoc.enrichedContent.sections).unchanged.map (fun s => s.title) ∨
         t ∈ (compareSections existing.enrichedContent.sections
            newDoc.enrichedContent.sections).modified.map (fun m => m.title)))) ∧
    (t ∉ (createMergePreview existing newDoc .mergeSections
        now).enrichedContent.sections.map (fun s => s.title) ↔
      t ∈ (compareSections existing.enrichedContent.sections
        newDoc.enrichedContent.sections).removed.map (fun s => s.title)) := by
  have hsec : (createMergePreview existing newDoc .mergeSections
      now).enrichedContent.sections =
    (compareSections existing.enrichedContent.sections
      newDoc.enrichedContent.sections).unchanged ++
    (compareSections existing.enrichedContent.sections
      newDoc.enrichedContent.sections).modified.map (fun m => m.new) ++
    (compareSections existing.enrichedContent.sections
      newDoc.enrichedContent.sections).added := rfl
  rw [hsec]
  constructor
  · rintro ⟨hrem, hun⟩
    obtain ⟨hre, hrn⟩ := mem_removed_titles.mp hrem
    have htn : t ∈ sectionTitles newDoc.enrichedContent.sections := by
      rcases hun with hu | hu
      · obtain ⟨s1, s2, h1, h2, _⟩ := mem_unchanged_titles.mp hu
        exact mem_sectionTitles.mpr (sectionGet_isSome_iff.mp (by simp [h2]))
      · obtain ⟨s1, s2, h1, h2, _⟩ := mem_modified_titles.mp hu
        exact mem_sectionTitles.mpr (sectionGet_isSome_iff.mp (by simp [h2]))
    exact hrn (mem_sectionTitles.mpr (mem_mergedSections_titles.mpr htn))
  · constructor
    · intro hnot
      have hnn : t ∉ sectionTitles newDoc.enrichedContent.sections := fun hn =>
        hnot (mem_mergedSections_titles.mpr hn)
      rcases h with hx | hx
      · exact mem_removed_titles.mpr ⟨mem_sectionTitles.mpr hx, hnn⟩
      · exact absurd (mem_sectionTitles.mpr hx) hnn
    · intro hrem hmem
      obtain ⟨_, hnn⟩ := mem_removed_titles.mp hrem
      exact hnn (mem_mergedSections_titles.mp hmem)

/-- Witness for C6 at a concrete input: merging `sampleDoc` with an
incoming document that dropped the "Overview" section; "Overview" was
classified removed, and it is indeed absent from the merged list. -/
theorem mergeSections_roundtrip_witness :
    ("Overview" ∈ sampleDoc.enrichedContent.sections.map (fun s => s.title) ∨
      "Overview" ∈ sampleDocNoSections.enrichedContent.sections.map
        (fun s => s.title)) ∧
    ((¬ ("Overview" ∈ (compareSections sampleDoc.enrichedContent.sections
          (createMergePreview sampleDoc sampleDocNoSections .mergeSections
            "2024-02-01T00:00:00Z").enrichedContent.sections).removed.map
            (fun s => s.title) ∧
        ("Overview" ∈ (compareSections sampleDoc.enrichedContent.sections
            sampleDocNoSections.enrichedContent.sections).unchanged.map
              (fun s => s.title) ∨
         "Overview" ∈ (compareSections sampleDoc.enrichedContent.sections
            sampleDocNoSections.enrichedContent.sections).modified.map
              (fun m => m.title)))) ∧
    ("Overview" ∉ (createMergePreview sampleDoc sampleDocNoSections .mergeSections
        "2024-02-01T00:00:00Z").enrichedContent.sections.map (fun s => s.title) ↔
      "Overview" ∈ (compareSections sampleDoc.enrichedContent.sections
        sampleDocNoSections.enrichedContent.sections).removed.map
          (fun s => s.title))) :=
  ⟨Or.inl (by decide),
    mergeSections_roundtrip sampleDoc sampleDocNoSections
      "2024-02-01T00:00:00Z" "Overview" (Or.inl (by decide))⟩

/-- C9 (failing input): on a document whose `sections` field is absent,
`analyzeDocuments` does not substitute an empty list — the call
`new Map(existingSections.map(...))` inside `analyzeSectionChanges` raises
a `TypeError`, so no `DriftAnalysis` is produced. -/
theorem analyzeDocumentsRT_missing_sections_error :
    analyzeDocumentsRT sampleDocMissingSections sampleDocMissingSections {} =
      .error "TypeError: Cannot read properties of undefined (reading map)" :=
  rfl

end DriftDetection
